import Mathlib

/-!
Verification of the array-handle core declared in
`xla/python/py_array.h` (the `PyArray` / `PyHostValue` / `PyArray_Storage`
surface). Functions whose bodies are inline in the header
(`IsReady`, `pjrt_buffers`, `num_addressable_shards`, `num_shards`) are
embedded directly from that code; operations that are only declared in the
header are modelled from the specification, as marked in their doc comments.
-/

namespace PyArrayModel

/-- Model of an `ifrt::Array` as observed through the interfaces the header
code uses: the deletion flag (`IsDeleted()`), the sharding's device list
(`sharding().devices()`), the result of `llvm::dyn_cast_or_null` to
`ifrt::PjRtCompatibleArray` (`some bufs` when the cast succeeds, carrying
`pjrt_buffers()`; `none` when the backend is not PjRt-compatible), and the
current poll value of `GetReadyFuture().IsReady()`. Buffers are identified
by opaque numbers. -/
structure IfrtArray where
  isDeleted : Bool
  shardingDevices : List Nat
  pjrtCompatBuffers : Option (List Nat)
  readyFutureIsReady : Bool
deriving DecidableEq, Repr

/-- Outcome of a C++ member function that either returns a value normally or
throws an `XlaRuntimeError` (an unrecoverable runtime fault, not a status). -/
inductive CppOutcome (α : Type) where
  | value : α → CppOutcome α
  | thrownXlaRuntimeError : String → CppOutcome α
deriving DecidableEq, Repr

/-- Embedding of `PyArray::pjrt_buffers` (py_array.h lines 216-228).
The `ifrt_array()` pointer may be null (`none`, the placeholder state): then
an empty span is returned. Otherwise a failed `dyn_cast` to
`PjRtCompatibleArray` throws `XlaRuntimeError`; a successful one returns the
backend's buffer list. -/
def pjrt_buffers (arr : Option IfrtArray) : CppOutcome (List Nat) :=
  match arr with
  | none => .value []
  | some a =>
    match a.pjrtCompatBuffers with
    | none => .thrownXlaRuntimeError
        "This operation is implemented for a PjRt-compatible backend only."
    | some bufs => .value bufs

/-- Embedding of `PyArray::num_shards` (py_array.h lines 254-260): 0 for a
null `ifrt_array()`, otherwise the size of the sharding's device list. -/
def num_shards (arr : Option IfrtArray) : Nat :=
  match arr with
  | none => 0
  | some a => a.shardingDevices.length

/-- Embedding of `PyArray::num_addressable_shards` (py_array.h lines
230-242): 0 for a null `ifrt_array()`; for a backend that is not
PjRt-compatible it falls back to `num_shards()`; otherwise the size of
`pjrt_buffers()`. -/
def num_addressable_shards (arr : Option IfrtArray) : Nat :=
  match arr with
  | none => 0
  | some a =>
    match a.pjrtCompatBuffers with
    | none => num_shards arr
    | some bufs => bufs.length

/-- Result type of `StatusOr<bool>`: either a value or an error status. -/
inductive StatusOrBool where
  | ok : Bool → StatusOrBool
  | invalidArgument : String → StatusOrBool
deriving DecidableEq, Repr

/-- Embedding of `PyArray::IsReady` (py_array.h lines 200-206). The C++
dereferences `ifrt_array()` unconditionally, so the model takes the
pointed-to array: if the array is deleted it returns
`InvalidArgument("Array has been deleted.")`, otherwise the readiness
future's poll value. -/
def IsReady (a : IfrtArray) : StatusOrBool :=
  if a.isDeleted then .invalidArgument "Array has been deleted."
  else .ok a.readyFutureIsReady

/-- Status result of a blocking wait. -/
inductive Status where
  | ok : Status
  | invalidArgument : String → Status
deriving DecidableEq, Repr

/-- Modelled from the spec: the body of `PyArray::BlockUntilReady` (declared
at py_array.h line 274; its definition is in a source file not present in
this repository snapshot). Per the spec it blocks until the backend array's
readiness future resolves, but if the array was deleted it returns a
deleted-array error instead of blocking. `readyStatus` is the value the
readiness future resolves to. -/
def BlockUntilReady (a : IfrtArray) (readyStatus : Status) : Status :=
  if a.isDeleted then .invalidArgument "Array has been deleted."
  else readyStatus

/-- C4: for every non-placeholder handle whose backend array has been
deleted, `BlockUntilReady` returns a deleted-array error rather than
blocking, and the non-blocking poll `IsReady` returns an invalid-argument
"Array has been deleted." error instead of a readiness value. -/
theorem C4_deleted_array_errors (a : IfrtArray) (readyStatus : Status)
    (h : a.isDeleted = true) :
    BlockUntilReady a readyStatus = .invalidArgument "Array has been deleted."
    ∧ IsReady a = .invalidArgument "Array has been deleted." := by
  constructor
  · simp [BlockUntilReady, h]
  · simp [IsReady, h]

/-- Witness for C4 at a concrete deleted two-device array. -/
theorem C4_deleted_array_errors_witness :
    BlockUntilReady ⟨true, [0, 1], none, false⟩ .ok
        = .invalidArgument "Array has been deleted."
    ∧ IsReady ⟨true, [0, 1], none, false⟩
        = .invalidArgument "Array has been deleted." :=
  C4_deleted_array_errors ⟨true, [0, 1], none, false⟩ .ok rfl

/-- C6: for every handle whose backend array reference is present but not
PjRt-compatible, `pjrt_buffers` throws `XlaRuntimeError` (an unrecoverable
runtime fault), rather than returning a recoverable status value. -/
theorem C6_pjrt_buffers_throws (a : IfrtArray)
    (h : a.pjrtCompatBuffers = none) :
    pjrt_buffers (some a) = .thrownXlaRuntimeError
      "This operation is implemented for a PjRt-compatible backend only." := by
  simp [pjrt_buffers, h]

/-- Witness for C6 at a concrete present, non-PjRt-compatible array. -/
theorem C6_pjrt_buffers_throws_witness :
    pjrt_buffers (some ⟨false, [0, 1, 2], none, true⟩)
      = .thrownXlaRuntimeError
        "This operation is implemented for a PjRt-compatible backend only." :=
  C6_pjrt_buffers_throws ⟨false, [0, 1, 2], none, true⟩ rfl

/-- C10: in the placeholder state (null backend array reference) the
shard-counting and buffer-access queries are total and benign:
`num_shards` and `num_addressable_shards` return 0 and `pjrt_buffers`
returns an empty span without throwing; and for a present but
non-PjRt-compatible backend array, `num_addressable_shards` equals
`num_shards`, which is the sharding's device count. -/
theorem C10_placeholder_queries_benign (a : IfrtArray)
    (h : a.pjrtCompatBuffers = none) :
    num_shards none = 0
    ∧ num_addressable_shards none = 0
    ∧ pjrt_buffers none = .value []
    ∧ num_addressable_shards (some a) = num_shards (some a)
    ∧ num_shards (some a) = a.shardingDevices.length := by
  refine ⟨rfl, rfl, rfl, ?_, rfl⟩
  simp [num_addressable_shards, h]

/-- Witness for C10 at a concrete non-PjRt-compatible three-device array. -/
theorem C10_placeholder_queries_benign_witness :
    num_shards none = 0
    ∧ num_addressable_shards none = 0
    ∧ pjrt_buffers none = .value []
    ∧ num_addressable_shards (some ⟨false, [0, 1, 2], none, true⟩)
        = num_shards (some ⟨false, [0, 1, 2], none, true⟩)
    ∧ num_shards (some ⟨false, [0, 1, 2], none, true⟩)
        = (⟨false, [0, 1, 2], none, true⟩ : IfrtArray).shardingDevices.length :=
  C10_placeholder_queries_benign ⟨false, [0, 1, 2], none, true⟩ rfl

/-- Outcome of a host copy: an error message, or the materialized host
buffer (identified by an opaque number, modelling `value_`). -/
inductive CopyResult where
  | hostBuffer : Nat → CopyResult
  | copyError : String → CopyResult
deriving DecidableEq, Repr

/-- Modelled from the spec: the readiness state of the Host Materialization
Cache (`PyHostValue::ready_`, py_array.h line 73; the bodies of
`CopyToHostAsync` and its completion callback are in a source file not
present in this repository snapshot). `idle` is the state before any copy
has been requested, `inflight` means a copy has been issued and its future
is pending, `resolved r` means the future has resolved to `r`. -/
inductive CacheState where
  | idle : CacheState
  | inflight : CacheState
  | resolved : CopyResult → CacheState
deriving DecidableEq, Repr

/-- Modelled from the spec: a `PyHostValue` cache instance, together with a
counter of asynchronous copy requests actually issued to the backend (used
to state the single-flight property). -/
structure PyHostValue where
  state : CacheState
  backendCalls : Nat
deriving DecidableEq, Repr

/-- Modelled from the spec: `PyHostValue::CopyToHostAsync` (declared at
py_array.h lines 66-67). If a copy is already in flight or complete the
call returns immediately without touching the backend; otherwise it issues
exactly one asynchronous copy request and arms the readiness future. -/
def CopyToHostAsync (c : PyHostValue) : PyHostValue :=
  match c.state with
  | .idle => { state := .inflight, backendCalls := c.backendCalls + 1 }
  | _ => c

/-- Modelled from the spec: the completion callback registered by
`CopyToHostAsync`, which stores the resulting host buffer (or propagates
the backend error) into the cache and resolves the readiness future. -/
def CompleteCopy (c : PyHostValue) (r : CopyResult) : PyHostValue :=
  match c.state with
  | .inflight => { c with state := .resolved r }
  | _ => c

/-- An event touching the cache: a `CopyToHostAsync` call from some caller,
or the backend completing the in-flight copy with result `r`. The spec's
concurrency model linearizes all cache mutation under a single exclusion
mechanism, so a concurrent execution is a sequence of these events. -/
inductive CacheEvent where
  | call : CacheEvent
  | complete : CopyResult → CacheEvent
deriving DecidableEq, Repr

/-- One linearized step of the cache. -/
def cacheStep (c : PyHostValue) : CacheEvent → PyHostValue
  | .call => CopyToHostAsync c
  | .complete r => CompleteCopy c r

/-- Run a sequence of linearized cache events. -/
def runCache (c : PyHostValue) (es : List CacheEvent) : PyHostValue :=
  es.foldl cacheStep c

/-- The cache of a freshly constructed handle: no copy requested yet. -/
def freshCache : PyHostValue := { state := .idle, backendCalls := 0 }

/-- What a waiter observes once the readiness future has resolved. -/
def observeCache (c : PyHostValue) : Option CopyResult :=
  match c.state with
  | .resolved r => some r
  | _ => none

lemma cacheStep_of_resolved (c : PyHostValue) (r : CopyResult) (e : CacheEvent)
    (h : c.state = .resolved r) : cacheStep c e = c := by
  cases e with
  | call => simp [cacheStep, CopyToHostAsync, h]
  | complete r' => simp [cacheStep, CompleteCopy, h]

lemma runCache_of_resolved (c : PyHostValue) (r : CopyResult)
    (es : List CacheEvent) (h : c.state = .resolved r) : runCache c es = c := by
  induction es with
  | nil => rfl
  | cons e es ih =>
    show runCache (cacheStep c e) es = c
    rw [cacheStep_of_resolved c r e h]
    exact ih

/-- Invariant tying the backend-call counter to the cache state: no call has
been issued exactly while the cache is idle, and at most one ever is. -/
def cacheInv (c : PyHostValue) : Prop :=
  (c.state = .idle ∧ c.backendCalls = 0) ∨ (c.state ≠ .idle ∧ c.backendCalls = 1)

lemma cacheStep_inv (c : PyHostValue) (e : CacheEvent) (h : cacheInv c) :
    cacheInv (cacheStep c e) := by
  rcases h with ⟨hs, hn⟩ | ⟨hs, hn⟩
  · cases e with
    | call =>
      right
      simp [cacheStep, CopyToHostAsync, hs, hn]
    | complete r =>
      left
      simp [cacheStep, CompleteCopy, hs, hn]
  · cases e with
    | call =>
      right
      cases hc : c.state with
      | idle => exact absurd hc hs
      | inflight =>
        refine ⟨?_, ?_⟩
        · simp [cacheStep, CopyToHostAsync, hc]
        · simp [cacheStep, CopyToHostAsync, hc, hn]
      | resolved r =>
        refine ⟨?_, ?_⟩
        · simp [cacheStep, CopyToHostAsync, hc]
        · simp [cacheStep, CopyToHostAsync, hc, hn]
    | complete r =>
      right
      cases hc : c.state with
      | idle => exact absurd hc hs
      | inflight =>
        refine ⟨?_, ?_⟩
        · simp [cacheStep, CompleteCopy, hc]
        · simp [cacheStep, CompleteCopy, hc, hn]
      | resolved r' =>
        refine ⟨?_, ?_⟩
        · simp [cacheStep, CompleteCopy, hc]
        · simp [cacheStep, CompleteCopy, hc, hn]

lemma runCache_inv (c : PyHostValue) (es : List CacheEvent) (h : cacheInv c) :
    cacheInv (runCache c es) := by
  induction es generalizing c with
  | nil => exact h
  | cons e es ih => exact ih (cacheStep c e) (cacheStep_inv c e h)

lemma cacheStep_not_idle (c : PyHostValue) (e : CacheEvent)
    (h : c.state ≠ .idle) : (cacheStep c e).state ≠ .idle := by
  cases e with
  | call =>
    cases hc : c.state with
    | idle => exact absurd hc h
    | inflight => simp [cacheStep, CopyToHostAsync, hc]
    | resolved r => simp [cacheStep, CopyToHostAsync, hc]
  | complete r =>
    cases hc : c.state with
    | idle => exact absurd hc h
    | inflight => simp [cacheStep, CompleteCopy, hc]
    | resolved r' => simp [cacheStep, CompleteCopy, hc]

lemma runCache_not_idle (c : PyHostValue) (es : List CacheEvent)
    (h : c.state ≠ .idle) : (runCache c es).state ≠ .idle := by
  induction es generalizing c with
  | nil => exact h
  | cons e es ih => exact ih (cacheStep c e) (cacheStep_not_idle c e h)

lemma runCache_call_not_idle (c : PyHostValue) (es : List CacheEvent)
    (h : .call ∈ es) : (runCache c es).state ≠ .idle := by
  induction es generalizing c with
  | nil => cases h
  | cons e es ih =>
    rcases List.mem_cons.mp h with he | he
    · subst he
      have hstep : (cacheStep c CacheEvent.call).state ≠ CacheState.idle := by
        cases hc : c.state with
        | idle => simp [cacheStep, CopyToHostAsync, hc]
        | inflight => simp [cacheStep, CopyToHostAsync, hc]
        | resolved r => simp [cacheStep, CopyToHostAsync, hc]
      show (runCache (cacheStep c CacheEvent.call) es).state ≠ CacheState.idle
      exact runCache_not_idle _ es hstep
    · exact ih (cacheStep c e) he

lemma runCache_append (c : PyHostValue) (es es' : List CacheEvent) :
    runCache c (es ++ es') = runCache (runCache c es) es' := by
  simp [runCache]

/-- C1: single-flight host materialization. If a copy is already in flight
or already complete, `CopyToHostAsync` returns immediately without issuing
a new backend copy; any linearized sequence of events containing at least
one `CopyToHostAsync` call on a fresh cache issues exactly one backend copy
request; and once a caller observes a result, every later caller observes
that same host value or that same error. -/
theorem C1_copy_to_host_single_flight (c : PyHostValue)
    (es es' : List CacheEvent) (r : CopyResult)
    (hbusy : c.state ≠ .idle) (hcall : .call ∈ es)
    (hobs : observeCache (runCache freshCache es) = some r) :
    CopyToHostAsync c = c
    ∧ (runCache freshCache es).backendCalls = 1
    ∧ observeCache (runCache freshCache (es ++ es')) = some r := by
  refine ⟨?_, ?_, ?_⟩
  · cases hc : c.state with
    | idle => exact absurd hc hbusy
    | inflight => simp [CopyToHostAsync, hc]
    | resolved r' => simp [CopyToHostAsync, hc]
  · have hinv : cacheInv (runCache freshCache es) :=
      runCache_inv freshCache es (Or.inl ⟨rfl, rfl⟩)
    rcases hinv with ⟨hs, _⟩ | ⟨_, hn⟩
    · exact absurd hs (runCache_call_not_idle freshCache es hcall)
    · exact hn
  · have hres : (runCache freshCache es).state = .resolved r := by
      cases hc : (runCache freshCache es).state with
      | idle => simp [observeCache, hc] at hobs
      | inflight => simp [observeCache, hc] at hobs
      | resolved r' =>
        simp [observeCache, hc] at hobs
        rw [hobs]
    rw [runCache_append, runCache_of_resolved _ r _ hres, observeCache, hres]

/-- Witness for C1: a busy cache, and a trace with two calls and one
completion observing the host buffer 42 which persists across a later
redundant call. -/
theorem C1_copy_to_host_single_flight_witness :
    CopyToHostAsync ⟨.inflight, 1⟩ = ⟨.inflight, 1⟩
    ∧ (runCache freshCache
        [.call, .call, .complete (.hostBuffer 42)]).backendCalls = 1
    ∧ observeCache (runCache freshCache
        ([.call, .call, .complete (.hostBuffer 42)] ++ [.call])) = some (.hostBuffer 42) :=
  C1_copy_to_host_single_flight ⟨.inflight, 1⟩
    [.call, .call, .complete (.hostBuffer 42)] [.call] (.hostBuffer 42)
    (by simp) (by simp) (by rfl)

/-- True exactly on resolved cache states (the readiness future has fired). -/
def isResolved : CacheState → Bool
  | .resolved _ => true
  | _ => false

/-- Number of pending-to-resolved transitions of the readiness future along
a trace of linearized cache events. -/
def resolutionCount : PyHostValue → List CacheEvent → Nat
  | _, [] => 0
  | c, e :: es =>
    (if isResolved c.state = false ∧ isResolved (cacheStep c e).state = true
      then 1 else 0)
    + resolutionCount (cacheStep c e) es

lemma resolutionCount_of_resolved (c : PyHostValue) (r : CopyResult)
    (es : List CacheEvent) (h : c.state = .resolved r) :
    resolutionCount c es = 0 := by
  induction es with
  | nil => rfl
  | cons e es ih =>
    simp only [resolutionCount, cacheStep_of_resolved c r e h]
    rw [if_neg]
    · simpa using ih
    · intro hcond
      rw [h] at hcond
      simp [isResolved] at hcond

lemma resolutionCount_le_one (c : PyHostValue) (es : List CacheEvent) :
    resolutionCount c es ≤ 1 := by
  induction es generalizing c with
  | nil => exact Nat.zero_le 1
  | cons e es ih =>
    by_cases hr : isResolved (cacheStep c e).state = true
    · have hex : ∃ r, (cacheStep c e).state = .resolved r := by
        cases hs : (cacheStep c e).state with
        | idle => rw [hs] at hr; simp [isResolved] at hr
        | inflight => rw [hs] at hr; simp [isResolved] at hr
        | resolved r => exact ⟨r, rfl⟩
      rcases hex with ⟨r, hcr⟩
      simp only [resolutionCount, resolutionCount_of_resolved _ r es hcr]
      split
      · omega
      · omega
    · simp only [resolutionCount]
      rw [if_neg]
      · simpa using ih (cacheStep c e)
      · intro hcond
        exact hr hcond.2

lemma resolutionCount_pos (c : PyHostValue) (es : List CacheEvent)
    (hc : isResolved c.state = false)
    (hres : isResolved (runCache c es).state = true) :
    1 ≤ resolutionCount c es := by
  induction es generalizing c with
  | nil =>
    have hrun : runCache c [] = c := rfl
    rw [hrun, hc] at hres
    cases hres
  | cons e es ih =>
    by_cases hr : isResolved (cacheStep c e).state = true
    · simp only [resolutionCount]
      rw [if_pos ⟨hc, hr⟩]
      omega
    · simp only [resolutionCount]
      rw [if_neg]
      · have hres' : isResolved (runCache (cacheStep c e) es).state = true := hres
        have := ih (cacheStep c e) (by simpa using hr) hres'
        omega
      · intro hcond
        exact hr hcond.2

/-- C8: the readiness future of a host materialization cache transitions
from pending to resolved exactly once along any trace that ends resolved
(never resolves twice, never reverts to pending): once the cache is
resolved every further event leaves it unchanged, and once resolved with an
error that same error is observed by every subsequent waiter. -/
theorem C8_readiness_resolves_once_sticky_error
    (es es' f : List CacheEvent) (c : PyHostValue) (r : CopyResult)
    (m : String)
    (herr : (runCache freshCache es).state = .resolved (.copyError m))
    (hcr : c.state = .resolved r) :
    resolutionCount freshCache es = 1
    ∧ runCache c f = c
    ∧ observeCache (runCache freshCache (es ++ es')) = some (.copyError m) := by
  refine ⟨?_, ?_, ?_⟩
  · have hle := resolutionCount_le_one freshCache es
    have hge := resolutionCount_pos freshCache es
      (by simp [freshCache, isResolved])
      (by rw [herr]; rfl)
    omega
  · exact runCache_of_resolved c r f hcr
  · rw [runCache_append, runCache_of_resolved _ _ es' herr]
    simp [observeCache, herr]

/-- Witness for C8 on the trace call, fail with "boom", then a late call
and a late completion that are both ignored. -/
theorem C8_readiness_resolves_once_sticky_error_witness :
    resolutionCount freshCache
        [.call, .complete (.copyError "boom")] = 1
    ∧ runCache ⟨.resolved (.hostBuffer 7), 1⟩
        [.call, .complete (.hostBuffer 9)] = ⟨.resolved (.hostBuffer 7), 1⟩
    ∧ observeCache (runCache freshCache
        ([.call, .complete (.copyError "boom")] ++ [.call]))
      = some (.copyError "boom") :=
  C8_readiness_resolves_once_sticky_error
    [.call, .complete (.copyError "boom")] [.call]
    [.call, .complete (.hostBuffer 9)]
    ⟨.resolved (.hostBuffer 7), 1⟩ (.hostBuffer 7) "boom" (by rfl) (by rfl)

/-- Modelled from the spec: the lifecycle-relevant state of one array
handle (`PyArray_Storage`, py_array.h lines 78-123; the body of
`PyArray::Delete`, declared at line 284, is in a source file not present in
this repository snapshot). `deleted` is the flag `IsDeleted` reflects,
`ownsIfrtArray` models holding the `tsl::RCReference<ifrt::Array>`,
`inRegistry` models membership in the client's doubly-linked list, and
`unlinkCount` counts how many times this handle has been unlinked from the
registry. -/
structure HandleState where
  deleted : Bool
  ownsIfrtArray : Bool
  inRegistry : Bool
  unlinkCount : Nat
deriving DecidableEq, Repr

/-- Modelled from the spec: `PyArray::Delete`. If the handle is already
deleted it is a no-op; otherwise it releases ownership of the backend array
reference, unlinks the handle from the registry exactly once, and marks the
handle deleted. -/
def Delete (h : HandleState) : HandleState :=
  if h.deleted then h
  else { deleted := true, ownsIfrtArray := false, inRegistry := false,
         unlinkCount := h.unlinkCount + 1 }

/-- Embedding of the flag read by `PyArray::IsDeleted` (py_array.h line
286; per the spec it reflects the deletion mark). -/
def IsDeleted (h : HandleState) : Bool := h.deleted

/-- Modelled from the spec: any operation that touches device data fails
with a deleted-array error once the handle is deleted. -/
def dataTouchingOp (h : HandleState) : Except String Unit :=
  if h.deleted then .error "Array has been deleted." else .ok ()

/-- C3: `Delete` is idempotent — on an already-deleted handle it is a
no-op; on a live handle the first call releases ownership of the backend
array reference, unlinks the handle from the registry exactly once (a
second `Delete` does not unlink again), and marks the handle so that
`IsDeleted` is true and subsequent data-touching operations fail with a
deleted-array error. -/
theorem C3_delete_idempotent (h g : HandleState)
    (hlive : h.deleted = false) (hdel : g.deleted = true) :
    Delete g = g
    ∧ Delete (Delete h) = Delete h
    ∧ (Delete h).ownsIfrtArray = false
    ∧ (Delete h).inRegistry = false
    ∧ (Delete h).unlinkCount = h.unlinkCount + 1
    ∧ (Delete (Delete h)).unlinkCount = h.unlinkCount + 1
    ∧ IsDeleted (Delete h) = true
    ∧ dataTouchingOp (Delete h) = .error "Array has been deleted." := by
  have hg : Delete g = g := by simp [Delete, hdel]
  have hone : Delete h
      = { deleted := true, ownsIfrtArray := false, inRegistry := false,
          unlinkCount := h.unlinkCount + 1 } := by
    simp [Delete, hlive]
  have htwo : Delete (Delete h) = Delete h := by
    rw [hone]
    simp [Delete]
  refine ⟨hg, htwo, ?_, ?_, ?_, ?_, ?_, ?_⟩
  · rw [hone]
  · rw [hone]
  · rw [hone]
  · rw [htwo, hone]
  · rw [hone]; rfl
  · rw [hone]; rfl

/-- Witness for C3 with a live registered handle and an already-deleted
one. -/
theorem C3_delete_idempotent_witness :
    Delete ⟨true, false, false, 1⟩ = ⟨true, false, false, 1⟩
    ∧ Delete (Delete ⟨false, true, true, 0⟩) = Delete ⟨false, true, true, 0⟩
    ∧ (Delete ⟨false, true, true, 0⟩).ownsIfrtArray = false
    ∧ (Delete ⟨false, true, true, 0⟩).inRegistry = false
    ∧ (Delete ⟨false, true, true, 0⟩).unlinkCount
        = (⟨false, true, true, 0⟩ : HandleState).unlinkCount + 1
    ∧ (Delete (Delete ⟨false, true, true, 0⟩)).unlinkCount
        = (⟨false, true, true, 0⟩ : HandleState).unlinkCount + 1
    ∧ IsDeleted (Delete ⟨false, true, true, 0⟩) = true
    ∧ dataTouchingOp (Delete ⟨false, true, true, 0⟩)
        = .error "Array has been deleted." :=
  C3_delete_idempotent ⟨false, true, true, 0⟩ ⟨true, false, false, 1⟩ rfl rfl

/-- Modelled from the spec: `PyArray::FetchSingleShard` (declared at
py_array.h line 301; its body is in a source file not present in this
repository snapshot). Requires the handle to represent exactly one shard
(shards are identified by opaque numbers here); otherwise it fails with an
"ambiguous shard" error that names the calling API `apiName`. -/
def FetchSingleShard (apiName : String) (shards : List Nat) :
    Except String Nat :=
  match shards with
  | [s] => .ok s
  | _ => .error ("ambiguous shard for " ++ apiName)

/-- C5: on a handle with more than one shard, `FetchSingleShard` fails with
a recoverable error whose message names the calling API; on a handle with
exactly one shard it succeeds and returns that shard. -/
theorem C5_fetch_single_shard (apiName : String) (shards : List Nat)
    (s : Nat) :
    (1 < shards.length →
      FetchSingleShard apiName shards
        = .error ("ambiguous shard for " ++ apiName))
    ∧ (shards = [s] → FetchSingleShard apiName shards = .ok s) := by
  constructor
  · intro hlen
    match shards, hlen with
    | a :: b :: t, _ => rfl
  · intro hs
    rw [hs]
    rfl

/-- Witness for C5: a three-shard handle fails naming the API, a
single-shard handle succeeds. -/
theorem C5_fetch_single_shard_witness :
    (1 < [7, 8, 9].length →
      FetchSingleShard "jnp_unstack" [7, 8, 9]
        = .error ("ambiguous shard for " ++ "jnp_unstack"))
    ∧ ([7, 8, 9] = [5] →
        FetchSingleShard "jnp_unstack" [7, 8, 9] = .ok 5) :=
  C5_fetch_single_shard "jnp_unstack" [7, 8, 9] 5

/-- Modelled from the spec: the reference-counted backend array shared by a
handle and its clones. `refCount` is the number of live handle references;
`data` is the device-resident contents, freed (set to `none`) when the
count reaches zero. -/
structure Backend where
  refCount : Nat
  data : Option Nat
deriving DecidableEq, Repr

/-- Modelled from the spec: one registry-visible handle over a shared
backend array. `regId` is its independent registry entry, `meta` bundles
the metadata (aval, dtype, shape, sharding) the clone shares. -/
structure RegHandle where
  regId : Nat
  deleted : Bool
  meta : Nat
deriving DecidableEq, Repr

/-- Modelled from the spec: `PyArray::Clone` (declared at py_array.h line
288; its body is in a source file not present in this repository
snapshot). Produces a new handle sharing the same backend array reference —
the reference count is incremented, nothing is copied — and the same
metadata, registered under a fresh independent registry entry. -/
def Clone (w : Backend) (h : RegHandle) (freshId : Nat) :
    Backend × RegHandle :=
  ({ w with refCount := w.refCount + 1 },
   { regId := freshId, deleted := false, meta := h.meta })

/-- Modelled from the spec: deleting a handle drops its reference to the
backend array; the backend array's storage is freed only when the last
referent goes away. -/
def DeleteHandle (w : Backend) (h : RegHandle) : Backend × RegHandle :=
  if h.deleted then (w, h)
  else
    ({ refCount := w.refCount - 1,
       data := if w.refCount - 1 = 0 then none else w.data },
     { h with deleted := true })

/-- Modelled from the spec: reading a handle's data succeeds while the
handle is not deleted and the backend storage is still alive. -/
def ReadData (w : Backend) (h : RegHandle) : Option Nat :=
  if h.deleted then none else w.data

/-- C7: `Clone` produces a new handle sharing the same backend array
reference (the reference count goes up by one and the device data is not
copied or moved) and the same metadata, under an independent registry
entry; deleting the clone leaves the original handle's backend array data
unchanged and readable, because the original's own reference keeps the
count positive so the clone is not the last referent. -/
theorem C7_clone_shares_backend (w : Backend) (h : RegHandle)
    (freshId : Nat) (v : Nat)
    (horig : h.deleted = false) (href : 1 ≤ w.refCount)
    (hdata : w.data = some v) (hfresh : freshId ≠ h.regId) :
    ((Clone w h freshId).1.refCount = w.refCount + 1)
    ∧ ((Clone w h freshId).1.data = w.data)
    ∧ ((Clone w h freshId).2.meta = h.meta)
    ∧ ((Clone w h freshId).2.regId ≠ h.regId)
    ∧ (DeleteHandle (Clone w h freshId).1 (Clone w h freshId).2).1.data
        = some v
    ∧ ReadData
        (DeleteHandle (Clone w h freshId).1 (Clone w h freshId).2).1 h
        = some v := by
  have hrc : (Clone w h freshId).1.refCount = w.refCount + 1 := rfl
  have hnz : w.refCount + 1 - 1 ≠ 0 := by omega
  have hdel :
      (DeleteHandle (Clone w h freshId).1 (Clone w h freshId).2).1.data
        = w.data := by
    simp [DeleteHandle, Clone, hnz]
    intro h0
    exact absurd h0 (by omega)
  refine ⟨rfl, rfl, rfl, hfresh, ?_, ?_⟩
  · rw [hdel, hdata]
  · rw [ReadData, if_neg]
    · rw [hdel, hdata]
    · simp [horig]

/-- Witness for C7: a singly-referenced backend holding the value 99, an
original handle at registry entry 0, a clone at entry 1. -/
theorem C7_clone_shares_backend_witness :
    ((Clone ⟨1, some 99⟩ ⟨0, false, 5⟩ 1).1.refCount = (1 : Nat) + 1)
    ∧ ((Clone ⟨1, some 99⟩ ⟨0, false, 5⟩ 1).1.data
        = (⟨1, some 99⟩ : Backend).data)
    ∧ ((Clone ⟨1, some 99⟩ ⟨0, false, 5⟩ 1).2.meta = (5 : Nat))
    ∧ ((Clone ⟨1, some 99⟩ ⟨0, false, 5⟩ 1).2.regId ≠ (0 : Nat))
    ∧ (DeleteHandle (Clone ⟨1, some 99⟩ ⟨0, false, 5⟩ 1).1
        (Clone ⟨1, some 99⟩ ⟨0, false, 5⟩ 1).2).1.data = some 99
    ∧ ReadData
        (DeleteHandle (Clone ⟨1, some 99⟩ ⟨0, false, 5⟩ 1).1
          (Clone ⟨1, some 99⟩ ⟨0, false, 5⟩ 1).2).1 ⟨0, false, 5⟩
        = some 99 :=
  C7_clone_shares_backend ⟨1, some 99⟩ ⟨0, false, 5⟩ 1 99 rfl
    (by decide) rfl (by decide)

/-- One shard of the backend array as `CheckAndRearrange` sees it: the
device it lives on and an opaque payload standing for the shard pointer. -/
structure Shard where
  device : Nat
  payload : Nat
deriving DecidableEq, Repr

/-- Set-wise comparison of two device lists, ignoring order. -/
def sameDeviceSet (xs ys : List Nat) : Bool :=
  decide ((∀ d ∈ xs, d ∈ ys) ∧ (∀ d ∈ ys, d ∈ xs))

/-- Modelled from the spec: `PyArray::CheckAndRearrange` (declared at
py_array.h line 304, run by the checked construction paths at lines
134-137 and 147-154; its body is in a source file not present in this
repository snapshot). It reads the backend array's device list, compares
it as a set against the sharding's device list — a mismatch is a fatal
construction error — and otherwise reorders the backend array's shard
pointers to the sharding's canonical device order, picking for each
declared device the (first) shard living on it. -/
def CheckAndRearrange (shardingDevices : List Nat) (shards : List Shard) :
    Except String (List Shard) :=
  if sameDeviceSet (shards.map Shard.device) shardingDevices then
    .ok (shardingDevices.filterMap
      (fun d => shards.find? (fun s => s.device == d)))
  else
    .error "ifrt_array device list does not match sharding device list"

lemma find?_device_eq_some (shards : List Shard) (d : Nat)
    (h : d ∈ shards.map Shard.device) :
    ∃ s, shards.find? (fun t => t.device == d) = some s
      ∧ s ∈ shards ∧ s.device = d := by
  rcases List.mem_map.mp h with ⟨s, hs, hd⟩
  have hsome : (shards.find? (fun t => t.device == d)).isSome := by
    rw [List.find?_isSome]
    exact ⟨s, hs, by simp [hd]⟩
  rcases Option.isSome_iff_exists.mp hsome with ⟨t, ht⟩
  refine ⟨t, ht, List.mem_of_find?_eq_some ht, ?_⟩
  have hp := List.find?_some ht
  simpa using hp

lemma rearranged_map_device (shards : List Shard) (sd : List Nat)
    (hmem : ∀ d ∈ sd, d ∈ shards.map Shard.device) :
    (sd.filterMap (fun d => shards.find? (fun s => s.device == d))).map
      Shard.device = sd := by
  induction sd with
  | nil => rfl
  | cons d rest ih =>
    rcases find?_device_eq_some shards d (hmem d (List.mem_cons_self d rest))
      with ⟨s, hfind, _, hdev⟩
    simp only [List.filterMap_cons, hfind, List.map_cons, hdev]
    rw [ih (fun x hx => hmem x (List.mem_cons_of_mem d hx))]

lemma mem_rearranged_iff (shards : List Shard) (sd : List Nat)
    (hsub : ∀ d ∈ shards.map Shard.device, d ∈ sd)
    (hdev : (shards.map Shard.device).Nodup) (s : Shard) :
    s ∈ sd.filterMap (fun d => shards.find? (fun t => t.device == d))
      ↔ s ∈ shards := by
  constructor
  · intro hs
    rcases List.mem_filterMap.mp hs with ⟨d, _, hfind⟩
    exact List.mem_of_find?_eq_some hfind
  · intro hs
    have hdmem : s.device ∈ shards.map Shard.device :=
      List.mem_map_of_mem Shard.device hs
    rcases find?_device_eq_some shards s.device hdmem
      with ⟨t, hfind, htmem, htdev⟩
    have hts : t = s := List.inj_on_of_nodup_map hdev htmem hs htdev
    rw [List.mem_filterMap]
    exact ⟨s.device, hsub _ hdmem, by rw [hfind, hts]⟩

/-- C2: checked construction compares the backend array's device list, as a
set, against the sharding's device list; a mismatch is a construction
error, and on a match the shard pointers are reordered — a permutation of
the original shards, no new shards fabricated — so that the published shard
device order equals the sharding's declared device order. -/
theorem C2_check_and_rearrange (sd : List Nat) (shards : List Shard)
    (hsd : sd.Nodup) (hdev : (shards.map Shard.device).Nodup) :
    (sameDeviceSet (shards.map Shard.device) sd = false →
      CheckAndRearrange sd shards
        = .error "ifrt_array device list does not match sharding device list")
    ∧ (sameDeviceSet (shards.map Shard.device) sd = true →
      ∃ out, CheckAndRearrange sd shards = .ok out
        ∧ out.map Shard.device = sd
        ∧ out.Perm shards) := by
  constructor
  · intro hmis
    rw [CheckAndRearrange, if_neg]
    rw [hmis]
    exact Bool.false_ne_true
  · intro hmatch
    have hset : (∀ d ∈ shards.map Shard.device, d ∈ sd)
        ∧ (∀ d ∈ sd, d ∈ shards.map Shard.device) := by
      have := of_decide_eq_true hmatch
      exact this
    set out := sd.filterMap (fun d => shards.find? (fun s => s.device == d))
      with hout
    have hmapdev : out.map Shard.device = sd :=
      rearranged_map_device shards sd hset.2
    have houtnodup : out.Nodup := by
      apply List.Nodup.of_map Shard.device
      rw [hmapdev]
      exact hsd
    have hshardsnodup : shards.Nodup := List.Nodup.of_map Shard.device hdev
    have hperm : out.Perm shards := by
      rw [List.perm_ext_iff_of_nodup houtnodup hshardsnodup]
      intro s
      exact mem_rearranged_iff shards sd hset.1 hdev s
    refine ⟨out, ?_, hmapdev, hperm⟩
    rw [CheckAndRearrange, if_pos hmatch]

/-- Witness for C2: the spec's scenario — sharding over devices `[0, 1]`,
backend shards arriving in device order `[1, 0]` — is accepted and
reordered to the sharding's order, and a backend whose device set `{1, 2}`
differs from the sharding's `{0, 1}` is rejected. -/
theorem C2_check_and_rearrange_witness :
    (∃ out, CheckAndRearrange [0, 1] [⟨1, 11⟩, ⟨0, 10⟩] = .ok out
        ∧ out.map Shard.device = [0, 1]
        ∧ out.Perm [⟨1, 11⟩, ⟨0, 10⟩])
    ∧ CheckAndRearrange [0, 1] [⟨1, 11⟩, ⟨0, 10⟩] = .ok [⟨0, 10⟩, ⟨1, 11⟩]
    ∧ CheckAndRearrange [0, 1] [⟨1, 11⟩, ⟨2, 12⟩]
        = .error "ifrt_array device list does not match sharding device list" :=
  ⟨(C2_check_and_rearrange [0, 1] [⟨1, 11⟩, ⟨0, 10⟩]
      (by decide) (by decide)).2 (by decide),
   by rfl,
   (C2_check_and_rearrange [0, 1] [⟨1, 11⟩, ⟨2, 12⟩]
      (by decide) (by decide)).1 (by decide)⟩

/-- Availability of the C++ special member functions of a class, as
declared in its header. -/
structure CppSpecialMembers where
  copyConstructorDeleted : Bool
  moveConstructorDeleted : Bool
  copyAssignDeleted : Bool
  moveAssignDeleted : Bool
deriving DecidableEq, Repr

/-- Embedding of the special-member declarations of `PyHostValue`
(py_array.h lines 61-64): copy constructor, move constructor, copy
assignment and move assignment are all `= delete`. -/
def pyHostValueSpecialMembers : CppSpecialMembers :=
  { copyConstructorDeleted := true
    moveConstructorDeleted := true
    copyAssignDeleted := true
    moveAssignDeleted := true }

/-- How a C++ data member is held by its containing object. -/
inductive MemberKind where
  | byValue : MemberKind
  | byPointer : MemberKind
  | byReference : MemberKind
  | sharedOwnership : MemberKind
deriving DecidableEq, Repr

/-- Embedding of the declaration `PyHostValue host_value;` inside
`PyArray_Storage` (py_array.h line 111): the cache is a by-value member,
not a pointer, reference, or shared-ownership wrapper. -/
def hostValueMemberKind : MemberKind := .byValue

/-- A constructed `PyArray_Storage` instance paired with the identity of
the `PyHostValue` cache it holds. Because `host_value` is a by-value member
of a class whose copy and move operations are deleted, the constructor can
only default-construct it in place: the cache instance is the one embedded
in this very storage, so its identity coincides with the storage's. -/
structure StorageInstance where
  storageId : Nat
  hostValueCacheId : Nat
deriving DecidableEq, Repr

/-- Construction of a `PyArray_Storage`: the embedded cache instance is
fresh, identified with the containing storage. -/
def mkStorage (sid : Nat) : StorageInstance :=
  { storageId := sid, hostValueCacheId := sid }

/-- C9: every handle owns exactly one host materialization cache that is
never shared with, copied to, or moved into any other handle: the cache
type has all four copy/move special members deleted, it is stored by value
inside the handle's storage, and any two distinct constructed storages hold
distinct cache instances. -/
theorem C9_host_cache_unshared (s t : StorageInstance) (i j : Nat)
    (hs : s = mkStorage i) (ht : t = mkStorage j)
    (hne : s.storageId ≠ t.storageId) :
    pyHostValueSpecialMembers.copyConstructorDeleted = true
    ∧ pyHostValueSpecialMembers.moveConstructorDeleted = true
    ∧ pyHostValueSpecialMembers.copyAssignDeleted = true
    ∧ pyHostValueSpecialMembers.moveAssignDeleted = true
    ∧ hostValueMemberKind = .byValue
    ∧ s.hostValueCacheId ≠ t.hostValueCacheId := by
  refine ⟨rfl, rfl, rfl, rfl, rfl, ?_⟩
  rw [hs, ht] at hne ⊢
  exact hne

/-- Witness for C9 at two concrete storages. -/
theorem C9_host_cache_unshared_witness :
    pyHostValueSpecialMembers.copyConstructorDeleted = true
    ∧ pyHostValueSpecialMembers.moveConstructorDeleted = true
    ∧ pyHostValueSpecialMembers.copyAssignDeleted = true
    ∧ pyHostValueSpecialMembers.moveAssignDeleted = true
    ∧ hostValueMemberKind = .byValue
    ∧ (mkStorage 0).hostValueCacheId ≠ (mkStorage 1).hostValueCacheId :=
  C9_host_cache_unshared (mkStorage 0) (mkStorage 1) 0 1 rfl rfl (by decide)

end PyArrayModel
